import Mathlib

/-!
Shallow embedding of `src/llms/openai.ts` from the obsidian-ai-tagger
repository: the `OpenAiLLM` class with its prompt construction
(`getPrompt`), model configuration (`getModel`) and the
`generateTags` method with its error-message-substring classifier.

Strings are embedded verbatim from the source (apostrophes written as
the escape \x27). The remote call itself is external nondeterminism:
`generateTags` is modelled as a function of the outcome of
`chain.invoke` (either a parsed response or a caught error message).
-/

/-- Boolean test that the first list is a prefix of the second,
character by character. -/
def startsWithList : List Char → List Char → Bool
  | [], _ => true
  | _ :: _, [] => false
  | a :: as, b :: bs => a == b && startsWithList as bs

/-- Boolean test that `pat` occurs as a contiguous run inside the second
list. -/
def occursIn (pat : List Char) : List Char → Bool
  | [] => startsWithList pat []
  | c :: rest => startsWithList pat (c :: rest) || occursIn pat rest

/-- Embedding of JavaScript `s.includes(pat)`: `pat` occurs as a
contiguous substring of `s`. -/
def containsB (s pat : String) : Bool :=
  occursIn pat.data s.data

/-- The system message template of `getPrompt`, up to the
`{tagsString}` placeholder (source lines 29-34). -/
def systemMessagePre : String :=
  "\nYou are an expert at categorizing OSINT technical texts using tags. Your task is to create tags for the mentions of technologies, company names, suppliers and other key information. Tags are used to categorize and organize documents based on its content. The format of a tag is a pound sign followed by the category \"#<category>\", for example \"#networking\".  \nHere are some existing tags that you can use to categorize the document.\n\nEXISTING TAGS:\n```\n"

/-- The system message template of `getPrompt`, after the
`{tagsString}` placeholder (source lines 36-39). -/
def systemMessagePost : String :=
  "\n```\n\nTag the users document based on its content. You can use EXISTING TAGS but also create  NEW TAGS that you come up with on your own. Ensure that the tags accurately reflect the document\x27s primary focus and themes.\n"

/-- The human message template of `getPrompt`, before the `{document}`
placeholder (source line 41). -/
def humanMessagePre : String :=
  "DOCUMENT:\n```"

/-- The human message template of `getPrompt`, after the `{document}`
placeholder (source line 41). -/
def humanMessagePost : String :=
  "```"

/-- The full system message template string of `getPrompt`. -/
def systemMessageTemplate : String :=
  systemMessagePre ++ "{tagsString}" ++ systemMessagePost

/-- The full human message template string of `getPrompt`. -/
def humanMessageTemplate : String :=
  humanMessagePre ++ "{document}" ++ humanMessagePost

/-- A chat prompt template: a system-role template and a human-role
template (the two-message `ChatPromptTemplate` of `getPrompt`). -/
structure ChatPromptTmpl where
  system : String
  human : String
deriving DecidableEq

/-- Embedding of `getPrompt`: the fixed two-message prompt template. -/
def getPrompt : ChatPromptTmpl :=
  ⟨systemMessageTemplate, humanMessageTemplate⟩

/-- Template substitution: the system message with `{tagsString}`
replaced by the given catalog text (the value is inserted verbatim, as
f-string formatting does). -/
def fillSystemMessage (tagsString : String) : String :=
  systemMessagePre ++ tagsString ++ systemMessagePost

/-- Template substitution: the human message with `{document}` replaced
by the given document text. -/
def fillHumanMessage (document : String) : String :=
  humanMessagePre ++ document ++ humanMessagePost

/-- The configuration passed to the `ChatOpenAI` constructor in
`getModel` (source lines 54-62). -/
structure ChatOpenAIConfig where
  modelName : String
  openAIApiKey : String
  temperature : Rat
  baseURL : Option String
  timeoutMs : Nat
deriving DecidableEq

/-- The `tool_choice` object bound to the model when tool use is
enabled (source lines 79-84). -/
structure ToolChoiceCfg where
  choiceType : String
  functionName : String
deriving DecidableEq

/-- The `JsonOutputKeyToolsParser` configuration (source lines 87-90). -/
structure KeyToolsParserCfg where
  keyName : String
  returnSingle : Bool
deriving DecidableEq

/-- Modelled from the spec: the name of the single declared extraction
function (`TagDocumentTool` from `src/tool.ts`, a static schema
declaration that is not under `src/`); only its name is relevant to the
binding in `getModel`. -/
def tagDocumentToolName : String :=
  "tag_document"

/-- The runnable returned by `getModel`: either the plain `ChatOpenAI`
model, or the model bound to the declared tools and a forced tool
choice, piped into a key-scoped JSON output parser. -/
inductive RunnableModel where
  | plain (cfg : ChatOpenAIConfig)
  | toolBound (cfg : ChatOpenAIConfig) (tools : List String)
      (choice : ToolChoiceCfg) (parser : KeyToolsParserCfg)
deriving DecidableEq

/-- The `ChatOpenAI` configuration underlying a runnable model. -/
def RunnableModel.config : RunnableModel → ChatOpenAIConfig
  | .plain cfg => cfg
  | .toolBound cfg _ _ _ => cfg

/-- The `ChatOpenAI` instance constructed in `getModel`: model name and
key from the instance, temperature 0.0, the configured base URL and a
10000 ms request timeout (source lines 54-62). -/
def mkChatOpenAI (modelId apiKey : String) (baseURL : Option String) :
    ChatOpenAIConfig :=
  ⟨modelId, apiKey, 0, baseURL, 10000⟩

/-- Embedding of `getModel` (source lines 51-98): when the model info
advertises tool use, bind the tag-document tool with a forced function
choice and pipe through a `JsonOutputKeyToolsParser` scoped to the tool
name with `returnSingle` set; otherwise return the plain model. -/
def getModel (modelId apiKey : String) (baseURL : Option String)
    (toolUse : Bool) : RunnableModel :=
  if toolUse then
    RunnableModel.toolBound (mkChatOpenAI modelId apiKey baseURL)
      [tagDocumentToolName]
      ⟨"function", tagDocumentToolName⟩
      ⟨tagDocumentToolName, true⟩
  else
    RunnableModel.plain (mkChatOpenAI modelId apiKey baseURL)

/-- The labeled error kinds of the classifier in `generateTags`
(source lines 115-151), one per thrown error, plus the fallback. -/
inductive ErrKind where
  | invalidCredentials
  | rateLimited
  | quotaExhausted
  | serverFault
  | serverOverloaded
  | inputTooLarge
  | badEndpoint
  | unreachableEndpoint
  | genericFailure
deriving DecidableEq

/-- The fixed user-facing message carried by each error kind, verbatim
from the `throw new Error(...)` calls of `generateTags`. -/
def ErrKind.message : ErrKind → String
  | .invalidCredentials =>
      "Incorrect API key. Please check your API key."
  | .rateLimited =>
      "You are sending requests too quickly. Please pace your requests or read OpenAI\x27s Rate limit guide."
  | .quotaExhausted =>
      "You have run out of OpenAI credits or hit your maximum monthly spend."
  | .serverFault =>
      "Issue on OpenAI\x27s servers. Please retry your request after a brief wait."
  | .serverOverloaded =>
      "OpenAI\x27s servers are experiencing high traffic. Please retry your requests after a brief wait."
  | .inputTooLarge =>
      "Your document is too long. Please reduce the length of your document."
  | .badEndpoint =>
      "Invalid custom base URL provided. Please check your custom base URL."
  | .unreachableEndpoint =>
      "Could not connect to custom base URL provided. Please check your custom base URL."
  | .genericFailure =>
      "Error while generating tags."

/-- The list of all error kinds the classifier can produce. -/
def allErrKinds : List ErrKind :=
  [.invalidCredentials, .rateLimited, .quotaExhausted, .serverFault,
   .serverOverloaded, .inputTooLarge, .badEndpoint,
   .unreachableEndpoint, .genericFailure]

/-- Embedding of the catch block of `generateTags` (source lines
115-151): the caught error message is matched against a fixed ordered
chain of substring tests; the first match decides the thrown error
kind, with the connection-error branch additionally guarded by a
configured base URL and a gpt-4 / gpt-3.5-turbo model name, and a
generic fallback. -/
def classifyKind (baseURL : Option String) (modelName : String)
    (msg : String) : ErrKind :=
  if containsB msg "Incorrect API key" then
    ErrKind.invalidCredentials
  else if containsB msg "Rate limit reached for requests" then
    ErrKind.rateLimited
  else if containsB msg "You exceeded your current quota, please check your plan and billing details" then
    ErrKind.quotaExhausted
  else if containsB msg "The server had an error while processing your request" then
    ErrKind.serverFault
  else if containsB msg "The engine is currently overloaded, please try again later" then
    ErrKind.serverOverloaded
  else if containsB msg "Please reduce the length" then
    ErrKind.inputTooLarge
  else if containsB msg "Invalid URL" then
    ErrKind.badEndpoint
  else if containsB msg "Connection error" && baseURL.isSome &&
      (containsB modelName "gpt-4" || containsB modelName "gpt-3.5-turbo") then
    ErrKind.unreachableEndpoint
  else
    ErrKind.genericFailure

/-- The message thrown by the catch block of `generateTags` for a given
caught error message. -/
def classifyError (baseURL : Option String) (modelName : String)
    (msg : String) : String :=
  (classifyKind baseURL modelName msg).message

/-- The structured response shape consumed by `generateTags`: the
`tags` and `newTags` fields of the parsed tool invocation. -/
structure TagResponse where
  tags : List String
  newTags : List String
deriving DecidableEq

/-- Modelled from the spec: `formatOutputTags` from the base class
`LLM` (`src/llms/base.ts`, not under `src/`); the spec says the
existing and newly proposed tags are "merged into a single flat
sequence of tag strings". -/
def formatOutputTags (tags newTags : List String) : List String :=
  tags ++ newTags

/-- Embedding of `generateTags` (source lines 100-154) as a function of
the outcome of `chain.invoke`: on success the response tags are merged
by `formatOutputTags` and returned; on failure the caught message is
classified and the corresponding fixed error message is thrown. The
document text and tag catalog feed only the invoked chain. -/
def generateTags (baseURL : Option String) (modelName : String)
    (documentText tagsString : String)
    (outcome : Except String TagResponse) :
    Except String (List String) :=
  match outcome with
  | .ok r => .ok (formatOutputTags r.tags r.newTags)
  | .error msg => .error (classifyError baseURL modelName msg)

/-- The instance state of the `OpenAiLLM` class: the fields declared in
the class together with `modelName` and `apiKey` inherited from the
base class `LLM`. -/
structure OpenAiLLMState where
  baseURL : Option String
  modelName : String
  apiKey : String
  prompt : ChatPromptTmpl
  model : RunnableModel
deriving DecidableEq

/-- Embedding of the `OpenAiLLM` constructor (source lines 21-26):
store the base URL, build the prompt with `getPrompt` and the model
with `getModel`. -/
def mkOpenAiLLM (modelId apiKey : String) (baseURL : Option String)
    (toolUse : Bool) : OpenAiLLMState :=
  ⟨baseURL, modelId, apiKey, getPrompt, getModel modelId apiKey baseURL toolUse⟩

/-- Embedding of a full `generateTags` call on an instance, with the
instance state threaded through: the method body reads `this.prompt`,
`this.model`, `this.baseURL` and `this.modelName` but assigns no field,
so the resulting state is the incoming one. -/
def OpenAiLLMState.generateTagsRun (llm : OpenAiLLMState)
    (documentText tagsString : String)
    (outcome : Except String TagResponse) :
    Except String (List String) × OpenAiLLMState :=
  (generateTags llm.baseURL llm.modelName documentText tagsString outcome, llm)

/-- The ordered substring-test table of the classifier: one boolean
guard and one thrown message per branch, in source order. -/
def triggerTable (baseURL : Option String) (modelName : String)
    (msg : String) : List (Bool × String) :=
  [ (containsB msg "Incorrect API key",
      ErrKind.invalidCredentials.message),
    (containsB msg "Rate limit reached for requests",
      ErrKind.rateLimited.message),
    (containsB msg "You exceeded your current quota, please check your plan and billing details",
      ErrKind.quotaExhausted.message),
    (containsB msg "The server had an error while processing your request",
      ErrKind.serverFault.message),
    (containsB msg "The engine is currently overloaded, please try again later",
      ErrKind.serverOverloaded.message),
    (containsB msg "Please reduce the length",
      ErrKind.inputTooLarge.message),
    (containsB msg "Invalid URL",
      ErrKind.badEndpoint.message),
    (containsB msg "Connection error" && baseURL.isSome &&
        (containsB modelName "gpt-4" || containsB modelName "gpt-3.5-turbo"),
      ErrKind.unreachableEndpoint.message) ]

/-- First-match lookup over a guard table: the value of the first entry
whose guard holds, else the default. -/
def firstMatch : List (Bool × String) → String → String
  | [], d => d
  | (g, v) :: rest, d => if g then v else firstMatch rest d

theorem startsWithList_append (pat rest : List Char) :
    startsWithList pat (pat ++ rest) = true := by
  induction pat with
  | nil => rfl
  | cons a as ih => simp [startsWithList, ih]

theorem occursIn_of_startsWith {pat l : List Char}
    (h : startsWithList pat l = true) : occursIn pat l = true := by
  cases l with
  | nil => simpa [occursIn] using h
  | cons c rest => simp [occursIn, h]

theorem occursIn_append (pat pre post : List Char) :
    occursIn pat (pre ++ (pat ++ post)) = true := by
  induction pre with
  | nil => exact occursIn_of_startsWith (startsWithList_append pat post)
  | cons c cs ih => simp [occursIn, ih]

theorem containsB_sandwich (pre pat post : String) :
    containsB (pre ++ pat ++ post) pat = true := by
  unfold containsB
  rw [String.data_append, String.data_append, List.append_assoc]
  exact occursIn_append pat.data pre.data post.data

theorem classify_eq_firstMatch (baseURL : Option String)
    (modelName msg : String) :
    classifyError baseURL modelName msg =
      firstMatch (triggerTable baseURL modelName msg)
        ErrKind.genericFailure.message := by
  simp only [classifyError, classifyKind, triggerTable, firstMatch]
  split_ifs <;> rfl

theorem firstMatch_getD (l : List (Bool × String)) (d e : String) (i : Nat)
    (hit : (l.getD i (false, e)).1 = true)
    (earlier : ∀ j, j < i → (l.getD j (false, e)).1 = false) :
    firstMatch l d = (l.getD i (false, e)).2 := by
  induction l generalizing i with
  | nil => simp [List.getD] at hit
  | cons p rest ih =>
    obtain ⟨g, v⟩ := p
    cases i with
    | zero =>
      have hg : g = true := by simpa using hit
      simp [firstMatch, hg]
    | succ n =>
      have hg : g = false := by simpa using earlier 0 (Nat.succ_pos n)
      have hrec := ih n (by simpa using hit)
        (fun j hj => by simpa using earlier (j + 1) (Nat.succ_lt_succ hj))
      simpa [firstMatch, hg] using hrec

theorem mem_allErrKinds (k : ErrKind) : k ∈ allErrKinds := by
  cases k <;> simp [allErrKinds]

/-- C1 counterexample: the spec table lists the trigger substring
"Rate limit reached", but the code tests for the longer substring
"Rate limit reached for requests"; the error message "Rate limit
reached" contains the spec trigger yet is classified as the generic
failure, not as the rate-limited kind. -/
theorem spec_short_trigger_counterexample :
    containsB "Rate limit reached" "Rate limit reached" = true ∧
    classifyError none "gpt-4" "Rate limit reached" =
      ErrKind.genericFailure.message ∧
    classifyError none "gpt-4" "Rate limit reached" ≠
      ErrKind.rateLimited.message := by
  refine ⟨by decide, by decide, by decide⟩

/-- C1 (amended): for every entry of the classifier table (with the
full trigger substrings of the code and, for the connection-error entry, the
base-URL-and-model guard), an error whose message satisfies that
guard of that entry and none of the guards of earlier entries is
re-thrown with the user-facing message of that entry. -/
theorem classifier_trigger_sound (baseURL : Option String)
    (modelName msg : String) (i : Nat)
    (hit : ((triggerTable baseURL modelName msg).getD i (false, "")).1 = true)
    (earlier : ∀ j, j < i →
      ((triggerTable baseURL modelName msg).getD j (false, "")).1 = false) :
    classifyError baseURL modelName msg =
      ((triggerTable baseURL modelName msg).getD i (false, "")).2 := by
  rw [classify_eq_firstMatch]
  exact firstMatch_getD _ _ _ i hit earlier

/-- C1 witness: the message "Rate limit reached for requests" matches
the second table entry and none before it, and is re-thrown with the
rate-limited message. -/
theorem classifier_trigger_sound_witness :
    classifyError none "any-model" "Rate limit reached for requests" =
      ErrKind.rateLimited.message := by
  have hmain := classifier_trigger_sound none "any-model"
    "Rate limit reached for requests" 1 (by decide)
    (fun j hj => by
      interval_cases j
      decide)
  rw [hmain]
  decide

/-- C2: for every tag catalog string and every document string, the
filled system message contains the catalog text verbatim and the filled
human message contains the document text verbatim. -/
theorem filled_prompt_contains_inputs (tagsString document : String) :
    containsB (fillSystemMessage tagsString) tagsString = true ∧
    containsB (fillHumanMessage document) document = true := by
  constructor
  · unfold fillSystemMessage
    exact containsB_sandwich systemMessagePre tagsString systemMessagePost
  · unfold fillHumanMessage
    exact containsB_sandwich humanMessagePre document humanMessagePost

/-- C3: with the tool-use flag set, `getModel` returns the model bound
to the single declared extraction function, with `tool_choice` forcing
that function and the output piped through a JSON parser scoped to the
tool name with `returnSingle`, and `generateTags` returns the flat
merge of the existing and new tags of the response; with the flag unset,
`getModel` returns the plain model and `generateTags` returns the list
produced by `formatOutputTags` on the parsed response. -/
theorem tool_use_paths (modelId apiKey : String) (baseURL : Option String)
    (documentText tagsString : String) (r : TagResponse) :
    getModel modelId apiKey baseURL true =
      RunnableModel.toolBound (mkChatOpenAI modelId apiKey baseURL)
        [tagDocumentToolName]
        ⟨"function", tagDocumentToolName⟩
        ⟨tagDocumentToolName, true⟩ ∧
    generateTags baseURL modelId documentText tagsString (.ok r) =
      .ok (r.tags ++ r.newTags) ∧
    getModel modelId apiKey baseURL false =
      RunnableModel.plain (mkChatOpenAI modelId apiKey baseURL) ∧
    generateTags baseURL modelId documentText tagsString (.ok r) =
      .ok (formatOutputTags r.tags r.newTags) :=
  ⟨rfl, rfl, rfl, rfl⟩

/-- C4: the classifier tests the caught message against its substrings
in a fixed order and the first matching entry wins: the thrown message
equals the first-match lookup over the ordered trigger table, with the
generic message as fallback. -/
theorem classifier_first_match_wins (baseURL : Option String)
    (modelName msg : String) :
    classifyError baseURL modelName msg =
      firstMatch (triggerTable baseURL modelName msg)
        ErrKind.genericFailure.message :=
  classify_eq_firstMatch baseURL modelName msg

/-- C5: an error whose message contains none of the trigger substrings
is re-thrown as the generic failure with its fixed message. -/
theorem unmatched_error_generic (baseURL : Option String)
    (modelName msg : String)
    (h0 : containsB msg "Incorrect API key" = false)
    (h1 : containsB msg "Rate limit reached for requests" = false)
    (h2 : containsB msg "You exceeded your current quota, please check your plan and billing details" = false)
    (h3 : containsB msg "The server had an error while processing your request" = false)
    (h4 : containsB msg "The engine is currently overloaded, please try again later" = false)
    (h5 : containsB msg "Please reduce the length" = false)
    (h6 : containsB msg "Invalid URL" = false)
    (h7 : containsB msg "Connection error" = false) :
    classifyError baseURL modelName msg = ErrKind.genericFailure.message := by
  simp [classifyError, classifyKind, h0, h1, h2, h3, h4, h5, h6, h7]

/-- C5 witness: the example message of the spec, "Some unrelated vendor
text" matches no trigger and yields the generic failure message. -/
theorem unmatched_error_generic_witness :
    classifyError none "gpt-4" "Some unrelated vendor text" =
      ErrKind.genericFailure.message :=
  unmatched_error_generic none "gpt-4" "Some unrelated vendor text"
    (by decide) (by decide) (by decide) (by decide) (by decide)
    (by decide) (by decide) (by decide)

/-- C6 counterexample: the message "Invalid URL Connection error"
contains "Connection error", a custom base URL is configured and the
model name contains "gpt-4", yet the thrown error is the bad-endpoint
kind (the earlier "Invalid URL" branch wins), not the
unreachable-endpoint kind the claim requires. -/
theorem connection_error_iff_counterexample :
    containsB "Invalid URL Connection error" "Connection error" = true ∧
    (some "http://localhost:1234").isSome = true ∧
    containsB "gpt-4" "gpt-4" = true ∧
    classifyError (some "http://localhost:1234") "gpt-4"
      "Invalid URL Connection error" ≠ ErrKind.unreachableEndpoint.message ∧
    classifyError (some "http://localhost:1234") "gpt-4"
      "Invalid URL Connection error" = ErrKind.badEndpoint.message := by
  refine ⟨by decide, by decide, by decide, by decide, by decide⟩

/-- C6 (amended): an error whose message contains "Connection error"
and none of the seven earlier trigger substrings is re-thrown as the
unreachable-endpoint kind if and only if a custom base URL is
configured and the model name contains "gpt-4" or "gpt-3.5-turbo";
otherwise it falls through to the generic failure. -/
theorem connection_error_guard (baseURL : Option String)
    (modelName msg : String)
    (hc : containsB msg "Connection error" = true)
    (h0 : containsB msg "Incorrect API key" = false)
    (h1 : containsB msg "Rate limit reached for requests" = false)
    (h2 : containsB msg "You exceeded your current quota, please check your plan and billing details" = false)
    (h3 : containsB msg "The server had an error while processing your request" = false)
    (h4 : containsB msg "The engine is currently overloaded, please try again later" = false)
    (h5 : containsB msg "Please reduce the length" = false)
    (h6 : containsB msg "Invalid URL" = false) :
    (classifyError baseURL modelName msg =
        ErrKind.unreachableEndpoint.message ↔
      baseURL.isSome = true ∧
        (containsB modelName "gpt-4" = true ∨
          containsB modelName "gpt-3.5-turbo" = true)) ∧
    (¬(baseURL.isSome = true ∧
        (containsB modelName "gpt-4" = true ∨
          containsB modelName "gpt-3.5-turbo" = true)) →
      classifyError baseURL modelName msg = ErrKind.genericFailure.message) := by
  cases hb : baseURL.isSome <;>
    cases hg4 : containsB modelName "gpt-4" <;>
      cases hg35 : containsB modelName "gpt-3.5-turbo" <;>
        simp [classifyError, classifyKind, ErrKind.message,
          hc, h0, h1, h2, h3, h4, h5, h6, hb, hg4, hg35]

/-- C6 witness: with a custom base URL, model name "gpt-4" and message
"Connection error", the thrown error is the unreachable-endpoint
message. -/
theorem connection_error_guard_witness :
    classifyError (some "http://localhost:1234") "gpt-4" "Connection error" =
      ErrKind.unreachableEndpoint.message := by
  have hmain := connection_error_guard (some "http://localhost:1234")
    "gpt-4" "Connection error" (by decide) (by decide) (by decide)
    (by decide) (by decide) (by decide) (by decide) (by decide)
  exact hmain.1.mpr ⟨by decide, Or.inl (by decide)⟩

/-- C7: on any failure of the remote call, `generateTags` throws
exactly one error whose kind is drawn from the fixed nine-element set,
carrying the fixed human-readable message of that kind; no retry and no
partial result appear in the function. -/
theorem failure_classified_fixed_kind (baseURL : Option String)
    (modelName documentText tagsString msg : String) :
    ∃ k ∈ allErrKinds,
      generateTags baseURL modelName documentText tagsString (.error msg) =
        .error (ErrKind.message k) :=
  ⟨classifyKind baseURL modelName msg,
    mem_allErrKinds (classifyKind baseURL modelName msg), rfl⟩

/-- C8: every model configuration constructed by `getModel` has
temperature exactly 0 and a request-level timeout of exactly 10000
milliseconds, for every model identifier, API key, base URL and
tool-use flag. -/
theorem model_config_fixed (modelId apiKey : String)
    (baseURL : Option String) (toolUse : Bool) :
    (getModel modelId apiKey baseURL toolUse).config.temperature = 0 ∧
    (getModel modelId apiKey baseURL toolUse).config.timeoutMs = 10000 := by
  cases toolUse <;> exact ⟨rfl, rfl⟩

/-- C9: every `generateTags` call leaves the instance fields `baseURL`,
`prompt` and `model` unchanged, and on a constructed instance `prompt`
and `model` are exactly the values fixed by the constructor via
`getPrompt` and `getModel`. -/
theorem generate_tags_preserves_state (llm : OpenAiLLMState)
    (modelId apiKey : String) (burl : Option String) (toolUse : Bool)
    (documentText tagsString : String)
    (outcome : Except String TagResponse) :
    ((llm.generateTagsRun documentText tagsString outcome).2.baseURL =
        llm.baseURL ∧
      (llm.generateTagsRun documentText tagsString outcome).2.prompt =
        llm.prompt ∧
      (llm.generateTagsRun documentText tagsString outcome).2.model =
        llm.model) ∧
    ((mkOpenAiLLM modelId apiKey burl toolUse).prompt = getPrompt ∧
      (mkOpenAiLLM modelId apiKey burl toolUse).model =
        getModel modelId apiKey burl toolUse ∧
      (mkOpenAiLLM modelId apiKey burl toolUse).baseURL = burl) :=
  ⟨⟨rfl, rfl, rfl⟩, ⟨rfl, rfl, rfl⟩⟩

/-- C10: the thrown error depends only on the caught message, the base
URL and the model name — two invocations with different document texts
and tag catalogs but the same failure message throw the same error —
and the thrown message is always one of the nine fixed constant
strings, so it never embeds the vendor error text or the document. -/
theorem thrown_error_independent_of_document (baseURL : Option String)
    (modelName msg d₁ d₂ t₁ t₂ : String) :
    generateTags baseURL modelName d₁ t₁ (.error msg) =
      generateTags baseURL modelName d₂ t₂ (.error msg) ∧
    ∃ k ∈ allErrKinds,
      generateTags baseURL modelName d₁ t₁ (.error msg) =
        .error (ErrKind.message k) :=
  ⟨rfl, classifyKind baseURL modelName msg,
    mem_allErrKinds (classifyKind baseURL modelName msg), rfl⟩
